import Mathlib

/-!
Verification of the X11 window-integration and input-propagation layer of the
conky overlay widget (src/output/x11.cc) and of the i8k fan-status formatter
(src/data/hardware/i8k.cc), as a shallow embedding: every server round-trip
(property reads, window-tree queries, Xinerama queries) becomes an explicit
input, and each function under scrutiny becomes a pure Lean function
mirroring the C++ control flow.
-/

/-- An X11 window identifier (XID). -/
abbrev Window := Nat

/- ------------------------------------------------------------------
Input propagation: propagate_x11_event / propagate_xinput_event
(x11.cc:1505-1602).
------------------------------------------------------------------ -/

/-- The erase/remove_if step of both propagation paths: every occurrence of
the overlay's own window (`window.window`) is removed from the list of
viewable windows found at the event's screen position. -/
def removeOverlay (overlay : Window) (below : List Window) : List Window :=
  below.filter (fun w => w ≠ overlay)

/-- C++ `vec.back()` with a default for the empty case: the last element of
the list, or `d` when the list is empty. -/
def lastD : List Window → Window → Window
  | [], d => d
  | w :: ws, _ => lastD ws w

/-- Forwarding target of `propagate_x11_event` (x11.cc:1570-1591): the window
field is first rewritten to `window.desktop`; if the filtered list of viewable
windows at the event position is non-empty, `below.back()` replaces it. -/
def propagateX11Target (desktop overlay : Window) (below : List Window) : Window :=
  lastD (removeOverlay overlay below) desktop

/-- Forwarding target of `propagate_xinput_event` (x11.cc:1511-1531): the
target starts as `window.root`; if the filtered list of viewable windows at
the event position is non-empty, `below.back()` replaces it. -/
def propagateXinputTarget (root overlay : Window) (below : List Window) : Window :=
  lastD (removeOverlay overlay below) root

/-- X11 core event type code (X.h). -/
def KeyPress : Nat := 2

/-- X11 core event type code (X.h). -/
def KeyRelease : Nat := 3

/-- X11 core event type code (X.h). -/
def ButtonPress : Nat := 4

/-- X11 core event type code (X.h). -/
def ButtonRelease : Nat := 5

/-- X11 core event type code (X.h). -/
def MotionNotify : Nat := 6

/-- X11 core event type code (X.h). -/
def EnterNotify : Nat := 7

/-- X11 core event type code (X.h). -/
def LeaveNotify : Nat := 8

/-- XInput2 event type code (XI2.h). -/
def XI_ButtonPress : Nat := 4

/-- XInput2 event type code (XI2.h). -/
def XI_ButtonRelease : Nat := 5

/-- XInput2 event type code (XI2.h). -/
def XI_Motion : Nat := 6

/-- An event reaching `propagate_x11_event`: either a plain core event
carrying its type code (this also covers GenericEvents of other extensions,
whose type code 35 is not an input type), or a GenericEvent of the XInput
extension (`ev.xgeneric.extension == window.xi_opcode`) carrying its XInput
event type and whether an event cookie was allocated for it. -/
inductive XEvent where
  | core (type : Nat)
  | xinput (hasCookie : Bool) (evtype : Nat)

/-- The seven input-event categories of the specification. -/
inductive InputCategory where
  | keyPress
  | keyRelease
  | buttonPress
  | buttonRelease
  | motion
  | enter
  | leave
deriving DecidableEq

/-- The input category an event belongs to, `none` for an event outside the
seven categories. Core events are classified by core type code, XInput
events by XInput event type. -/
def eventCategory : XEvent → Option InputCategory
  | .core t =>
    if t = KeyPress then some .keyPress
    else if t = KeyRelease then some .keyRelease
    else if t = ButtonPress then some .buttonPress
    else if t = ButtonRelease then some .buttonRelease
    else if t = MotionNotify then some .motion
    else if t = EnterNotify then some .enter
    else if t = LeaveNotify then some .leave
    else none
  | .xinput _ e =>
    if e = XI_ButtonPress then some .buttonPress
    else if e = XI_ButtonRelease then some .buttonRelease
    else if e = XI_Motion then some .motion
    else none

/-- Whether `propagate_x11_event` (x11.cc:1546-1602) reaches its XSendEvent
call, i.e. forwards the event instead of returning early. A core event is
forwarded exactly when its type is one of the seven checked codes
(x11.cc:1558-1565); an XInput event is handed to `propagate_xinput_event`
only when its cookie is present (x11.cc:1551-1555), which in turn returns
early unless the event type is Motion, ButtonPress or ButtonRelease
(x11.cc:1506-1509). -/
def propagate_x11_event_forwards : XEvent → Bool
  | .core t =>
    decide (t = KeyPress ∨ t = KeyRelease ∨ t = ButtonPress ∨ t = ButtonRelease ∨
      t = MotionNotify ∨ t = EnterNotify ∨ t = LeaveNotify)
  | .xinput c e =>
    c && decide (e = XI_Motion ∨ e = XI_ButtonPress ∨ e = XI_ButtonRelease)

/- ------------------------------------------------------------------
Virtual-root resolution: VRootWindowOfScreen (x11.cc:208-237).
------------------------------------------------------------------ -/

/-- `VRootWindowOfScreen` (x11.cc:208-237), with server interactions as
inputs. `vrAtom` and `cdAtom` are the results of interning
_NET_VIRTUAL_ROOTS resp. _NET_CURRENT_DESKTOP with only_if_exists set
(`none` for atom value 0, the unavailable case); `vroots` is the window list
read for _NET_VIRTUAL_ROOTS; `cardinal` is the value read for
_NET_CURRENT_DESKTOP. The entry at index `cardinal` is selected only when it
is in range, otherwise the true root is returned. -/
def VRootWindowOfScreen (root : Window) (vrAtom : Option Nat)
    (vroots : List Window) (cdAtom : Option Nat) (cardinal : Nat) : Window :=
  match vrAtom with
  | none => root
  | some _ =>
    if vroots.isEmpty then root
    else
      match cdAtom with
      | none => root
      | some _ =>
        if h : cardinal < vroots.length then vroots.get ⟨cardinal, h⟩ else root

/- ------------------------------------------------------------------
Own-window creation: x11_init_window (x11.cc:485-908).
------------------------------------------------------------------ -/

/-- The own_window_type configuration values (lua/x11-settings). -/
inductive window_type where
  | normal
  | desktop
  | dock
  | panel
  | utility
  | override
deriving DecidableEq

/-- The position handed to XCreateWindow for a managed (non-override) own
window (x11.cc:601-607): the requested geometry position, forced to the
origin for the DOCK window type only. -/
def managed_creation_pos (t : window_type) (pos : Int × Int) : Int × Int :=
  if t = window_type.dock then (0, 0) else pos

/- ------------------------------------------------------------------
Desktop-state cache: get_x11_desktop_current / _number / _names /
_current_name (x11.cc:949-1069).
------------------------------------------------------------------ -/

/-- The X11 predefined atom XA_CARDINAL (Xatom.h). -/
def XA_CARDINAL : Nat := 6

/-- What one XGetWindowProperty round-trip hands back: the call's return
status (0 is Success), the actual type atom, the actual format, the item
count and the property bytes. -/
structure PropReply where
  status : Int
  actualType : Nat
  actualFormat : Int
  nitems : Nat
  data : List Nat
deriving DecidableEq

/-- The cached desktop state, `info.x11.desktop`: 1-based current index,
total count, the NUL-delimited name-list bytes and the current name bytes. -/
structure DesktopInfo where
  current : Nat
  number : Nat
  all_names : List Nat
  name : List Nat
deriving DecidableEq

/-- The acceptance test of get_x11_desktop_current and _number
(x11.cc:961-964, 982-985): Success, type XA_CARDINAL, exactly one item,
format 32. -/
def cardinalOk (r : PropReply) : Bool :=
  r.status == 0 && r.actualType == XA_CARDINAL && r.nitems == 1 &&
    r.actualFormat == 32

/-- The acceptance test of get_x11_desktop_names (x11.cc:1003-1007):
Success, type UTF8_STRING (an interned atom, passed in), more than zero
items, format 8. -/
def namesOk (utf8 : Nat) (r : PropReply) : Bool :=
  r.status == 0 && r.actualType == utf8 && 0 < r.nitems &&
    r.actualFormat == 8

/-- `get_x11_desktop_current` (x11.cc:950-968): on an absent atom or any
reply mismatch the cache is left untouched; otherwise the current index
becomes the first property byte plus one. -/
def get_x11_desktop_current (atom : Option Nat) (r : PropReply)
    (s : DesktopInfo) : DesktopInfo :=
  match atom with
  | none => s
  | some _ =>
    if cardinalOk r then { s with current := r.data.headD 0 + 1 } else s

/-- `get_x11_desktop_number` (x11.cc:971-989): on an absent atom or any
reply mismatch the cache is left untouched; otherwise the desktop count
becomes the first property byte. -/
def get_x11_desktop_number (atom : Option Nat) (r : PropReply)
    (s : DesktopInfo) : DesktopInfo :=
  match atom with
  | none => s
  | some _ =>
    if cardinalOk r then { s with number := r.data.headD 0 } else s

/-- `get_x11_desktop_names` (x11.cc:992-1012): on an absent atom or any
reply mismatch the cache is left untouched; otherwise the name-list cache is
assigned the first `nitems` property bytes. -/
def get_x11_desktop_names (atom : Option Nat) (utf8 : Nat) (r : PropReply)
    (s : DesktopInfo) : DesktopInfo :=
  match atom with
  | none => s
  | some _ =>
    if namesOk utf8 r then { s with all_names := r.data.take r.nitems } else s

/-- The scanning loop of `get_x11_desktop_current_name` (x11.cc:1020-1028):
walk the name-list bytes, counting NUL separators; when the count reaches
the 1-based current index, yield the offset of the name that the just-passed
NUL terminated. `i` is the index of the byte under scrutiny, `j` the offset
the current name started at, `k` the separators seen so far. -/
def findNameOffset (current : Nat) : List Nat → Nat → Nat → Nat → Option Nat
  | [], _, _, _ => none
  | b :: rest, i, j, k =>
    if b = 0 then
      if k + 1 = current then some j
      else findNameOffset current rest (i + 1) (i + 1) (k + 1)
    else findNameOffset current rest (i + 1) j k

/-- The bytes of the NUL-terminated C string starting at offset `j` of the
name-list buffer (`names.c_str() + j`). -/
def cStringAt (names : List Nat) (j : Nat) : List Nat :=
  (names.drop j).takeWhile (fun b => b ≠ 0)

/-- `get_x11_desktop_current_name` (x11.cc:1015-1029): derive the current
desktop name from the cached name list and the cached current index; if the
scan never reaches the current index the previous name is kept. -/
def get_x11_desktop_current_name (s : DesktopInfo) : DesktopInfo :=
  match findNameOffset s.current s.all_names 0 0 0 with
  | some j => { s with name := cStringAt s.all_names j }
  | none => s

/-- The byte string "Desk1\0Desk2\0Desk3\0" of the specification's
round-trip example. -/
def deskNamesExample : List Nat :=
  [68, 101, 115, 107, 49, 0, 68, 101, 115, 107, 50, 0, 68, 101, 115, 107, 51, 0]

/- ------------------------------------------------------------------
Workarea computation: update_x11_workarea (x11.cc:331-371).
------------------------------------------------------------------ -/

/-- A rectangle in display pixels: top-left position plus width/height
(conky::absolute_rect, spec data model). -/
structure Rect where
  x : Int
  y : Int
  w : Int
  h : Int
deriving DecidableEq

/-- The full-display rectangle: origin position, display size. -/
def fullRect (dw dh : Int) : Rect := ⟨0, 0, dw, dh⟩

/-- Containment of one rectangle in another. -/
def rectInside (inner outer : Rect) : Prop :=
  outer.x ≤ inner.x ∧ outer.y ≤ inner.y ∧
  inner.x + inner.w ≤ outer.x + outer.w ∧
  inner.y + inner.h ≤ outer.y + outer.h

instance (r o : Rect) : Decidable (rectInside r o) := by
  unfold rectInside; infer_instance

/-- `update_x11_workarea` (x11.cc:331-371), with the display size and the
Xinerama queries as inputs, returning the computed workarea and the number
of warnings (NORM_ERR calls) emitted. The workarea defaults to the full
display; when the Xinerama extension is present and active and the screen
query succeeds, a head index in range replaces it by that head's reported
rectangle, while an out-of-range index warns once and keeps the default;
a failed screen query also warns once and keeps the default. -/
def update_x11_workarea (dw dh : Int) (hasXinerama xineramaActive : Bool)
    (screens : Option (List Rect)) (head_index : Int) : Rect × Nat :=
  if !hasXinerama then (fullRect dw dh, 0)
  else if !xineramaActive then (fullRect dw dh, 0)
  else
    match screens with
    | none => (fullRect dw dh, 1)
    | some si =>
      if h : head_index < 0 ∨ (si.length : Int) ≤ head_index then
        (fullRect dw dh, 1)
      else (si.get ⟨head_index.toNat, by omega⟩, 0)

/- ------------------------------------------------------------------
Desktop-window search: find_desktop_window_impl / find_desktop_window
(x11.cc:377-395, 910-938).
------------------------------------------------------------------ -/

/-- The attributes of a window as XGetWindowAttributes reports them to the
search: whether the call succeeded, whether map_state is IsViewable, the
override_redirect flag and the bounding-box size. -/
structure XChildAttrs where
  fetchOk : Bool
  viewable : Bool
  overrideRedirect : Bool
  width : Int
  height : Int

/-- The server-side window tree as the search sees it: each window's
children in enumeration order (XQueryTree) and each window's attributes. -/
structure XTree where
  children : Window → List Window
  attrs : Window → XChildAttrs

/-- The per-child acceptance test of find_desktop_window_impl
(x11.cc:922-926): attributes fetched, mapped (IsViewable), not
override-redirect, and exactly the target width and height. -/
def desktopMatch (t : XTree) (w h : Int) (c : Window) : Bool :=
  (t.attrs c).fetchOk && (t.attrs c).viewable && !(t.attrs c).overrideRedirect &&
    ((t.attrs c).width == w && (t.attrs c).height == h)

/-- One level of the search (the inner j-loop, x11.cc:920-931): the first
child, in enumeration order, passing the acceptance test. -/
def findDesktopStep (t : XTree) (w h : Int) (win : Window) : Option Window :=
  (t.children win).find? (desktopMatch t w h)

/-- `find_desktop_window_impl` (x11.cc:910-938): descend from `win` for at
most `fuel` levels (the source calls it with 10); at each level move to the
first matching child, and stop at the first level with no matching child,
returning the window reached (the given window when no child ever
matched). -/
def find_desktop_window_impl (t : XTree) (w h : Int) : Nat → Window → Window
  | 0, win => win
  | fuel + 1, win =>
    match findDesktopStep t w h win with
    | none => win
    | some c => find_desktop_window_impl t w h fuel c

/-- `k` consecutive successful levels of descent from `win`: `none` when
some level among the `k` has no matching child. -/
def stepChain (t : XTree) (w h : Int) : Nat → Window → Option Window
  | 0, win => some win
  | k + 1, win => (findDesktopStep t w h win).bind (stepChain t w h k)

/-- `find_desktop_window` (x11.cc:377-395): one bounded search for the full
display size, then one for the workarea size from the window the first
found, preferring the later result. -/
def find_desktop_window (t : XTree) (dispW dispH waW waH : Int)
    (root : Window) : Window :=
  find_desktop_window_impl t waW waH 10
    (find_desktop_window_impl t dispW dispH 10 root)

/- ------------------------------------------------------------------
Strut reservation: set_struts (x11.cc:1151-1390).
------------------------------------------------------------------ -/

/-- The text_alignment configuration values. -/
inductive alignment where
  | top_left
  | top_right
  | top_middle
  | bottom_left
  | bottom_right
  | bottom_middle
  | middle_left
  | middle_right
  | middle_middle
  | noneAlign
deriving DecidableEq

/-- Modelled from the spec: "middle/none alignments reserve nothing" and the
source comment "Middle and none align don't have least significant bit set"
(the alignment bit encoding lives in gui.h, which is not among this
repository's files). The test `(*align & 0b0101) == 0` of x11.cc:1222 holds
exactly for the middle-middle and none alignments: each axis field is
START, MIDDLE or END, and only MIDDLE and NONE have a clear low bit. -/
def alignMask0101Zero : alignment → Bool
  | .middle_middle => true
  | .noneAlign => true
  | _ => false

/-- The overlay window geometry, `window.geometry`: position and size
(conky::rect, spec data model: top-left position plus width/height). -/
structure Geometry where
  x : Int
  y : Int
  w : Int
  h : Int
deriving DecidableEq

/-- Modelled from the spec's Rectangle (top-left position plus width/height):
`geometry.end_x()`, the right edge coordinate. -/
def end_x (g : Geometry) : Int := g.x + g.w

/-- Modelled from the spec's Rectangle (top-left position plus width/height):
`geometry.end_y()`, the bottom edge coordinate. -/
def end_y (g : Geometry) : Int := g.y + g.h

/-- C++ std::clamp on integers. -/
def clampI (v lo hi : Int) : Int :=
  if v < lo then lo else if hi < v then hi else v

/-- The twelve-slot strut vector (namespace x11_strut, x11.cc:1127-1149):
four edge sizes plus eight per-edge start/end range values. -/
structure Struts where
  left : Int
  right : Int
  top : Int
  bottom : Int
  left_start_y : Int
  left_end_y : Int
  right_start_y : Int
  right_end_y : Int
  top_start_x : Int
  top_end_x : Int
  bottom_start_x : Int
  bottom_end_x : Int
deriving DecidableEq

/-- The all-zero strut vector (x11_strut::array, x11.cc:1144-1148). -/
def Struts.zero : Struts := ⟨0, 0, 0, 0, 0, 0, 0, 0, 0, 0, 0, 0⟩

/-- The left-edge reservation: strut value the window's right edge, range
the window's vertical extent, all clamped (x11.cc:1280-1285, 1326-1331). -/
def leftStruts (dw dh : Int) (g : Geometry) : Struts :=
  { Struts.zero with
    left := clampI (end_x g) 0 dw
    left_start_y := clampI g.y 0 dh
    left_end_y := clampI (end_y g) 0 dh }

/-- The right-edge reservation: strut value the distance from the window's
left edge to the display's right side, range the window's vertical extent,
all clamped (x11.cc:1290-1295, 1336-1341). -/
def rightStruts (dw dh : Int) (g : Geometry) : Struts :=
  { Struts.zero with
    right := dw - clampI g.x 0 dw
    right_start_y := clampI g.y 0 dh
    right_end_y := clampI (end_y g) 0 dh }

/-- The top-edge reservation: strut value the window's bottom edge, range
the window's horizontal extent, all clamped (x11.cc:1236-1241,
1348-1353). -/
def topStruts (dw dh : Int) (g : Geometry) : Struts :=
  { Struts.zero with
    top := clampI (end_y g) 0 dh
    top_start_x := clampI g.x 0 dw
    top_end_x := clampI (end_x g) 0 dw }

/-- The bottom-edge reservation: strut value the distance from the window's
top edge to the display's bottom, range the window's horizontal extent, all
clamped (x11.cc:1246-1252, 1358-1363). -/
def bottomStruts (dw dh : Int) (g : Geometry) : Struts :=
  { Struts.zero with
    bottom := dh - clampI g.y 0 dh
    bottom_start_x := clampI g.x 0 dw
    bottom_end_x := clampI (end_x g) 0 dw }

/-- The cutout-capable branch of set_struts (x11.cc:1218-1318): for a wide
window prefer top/bottom reservation, for a thin one left/right, keyed to
the alignment; middle-middle and none reach the default case and reserve
nothing (the source returns before this point for them). -/
def cutoutStruts (dw dh : Int) (is_wide_window : Bool) (align : alignment)
    (g : Geometry) : Struts :=
  if is_wide_window then
    match align with
    | .top_left | .top_right | .top_middle => topStruts dw dh g
    | .bottom_left | .bottom_right | .bottom_middle => bottomStruts dw dh g
    | .middle_left => leftStruts dw dh g
    | .middle_right => rightStruts dw dh g
    | _ => Struts.zero
  else
    match align with
    | .top_left | .middle_left | .bottom_left => leftStruts dw dh g
    | .top_right | .middle_right | .bottom_right => rightStruts dw dh g
    | .top_middle => topStruts dw dh g
    | .bottom_middle => bottomStruts dw dh g
    | _ => Struts.zero

/-- The spec-conservative branch of set_struts (x11.cc:1319-1366): pick the
axis by window aspect ratio, then the edge with least leftover space. -/
def genericStruts (dw dh : Int) (g : Geometry) : Struts :=
  if g.w < g.h then
    let space_left := end_x g
    let space_right := dw - end_x g + g.w
    if space_left < space_right then leftStruts dw dh g
    else rightStruts dw dh g
  else
    let space_top := end_y g
    let space_bottom := dh - end_y g + g.h
    if space_top < space_bottom then topStruts dw dh g
    else bottomStruts dw dh g

/-- `set_struts` (x11.cc:1151-1390), with the display size, the runtime
window-manager checks and the static wide-window latch as inputs. Returns
the twelve strut values pushed by the property writes, or `none` when the
function returns before writing any (absent strut atom, or a cutout-capable
window manager with a middle/none alignment). -/
def set_struts (strutAtomPresent : Bool) (dw dh : Int)
    (supports_cutout : Bool) (align : alignment) (is_wide_window : Bool)
    (g : Geometry) : Option Struts :=
  if !strutAtomPresent then none
  else if supports_cutout then
    if alignMask0101Zero align then none
    else some (cutoutStruts dw dh is_wide_window align g)
  else some (genericStruts dw dh g)

/-- Every strut slot measuring a horizontal extent lies in [0, dw] and every
slot measuring a vertical extent lies in [0, dh]. -/
def strutsBounded (dw dh : Int) (s : Struts) : Prop :=
  0 ≤ s.left ∧ s.left ≤ dw ∧
  0 ≤ s.right ∧ s.right ≤ dw ∧
  0 ≤ s.top ∧ s.top ≤ dh ∧
  0 ≤ s.bottom ∧ s.bottom ≤ dh ∧
  0 ≤ s.left_start_y ∧ s.left_start_y ≤ dh ∧
  0 ≤ s.left_end_y ∧ s.left_end_y ≤ dh ∧
  0 ≤ s.right_start_y ∧ s.right_start_y ≤ dh ∧
  0 ≤ s.right_end_y ∧ s.right_end_y ≤ dh ∧
  0 ≤ s.top_start_x ∧ s.top_start_x ≤ dw ∧
  0 ≤ s.top_end_x ∧ s.top_end_x ≤ dw ∧
  0 ≤ s.bottom_start_x ∧ s.bottom_start_x ≤ dw ∧
  0 ≤ s.bottom_end_x ∧ s.bottom_end_x ≤ dw

instance (dw dh : Int) (s : Struts) : Decidable (strutsBounded dw dh s) := by
  unfold strutsBounded; infer_instance

/- ------------------------------------------------------------------
i8k fan-status formatter: print_i8k_fan_status (i8k.cc:89-96).
------------------------------------------------------------------ -/

/-- Whether a byte is one of C's isspace characters in the default locale. -/
def isSpaceByte (b : Nat) : Bool := b == 32 || (9 ≤ b && b ≤ 13)

/-- Whether a byte is an ASCII decimal digit. -/
def isDigitByte (b : Nat) : Bool := 48 ≤ b && b ≤ 57

/-- The leading-digit accumulator of atoi. -/
def atoiDigits : List Nat → Int → Int
  | [], acc => acc
  | b :: rest, acc =>
    if isDigitByte b then atoiDigits rest (acc * 10 + ((b : Int) - 48))
    else acc

/-- Modelled from the C standard library: `atoi` skips leading whitespace,
accepts one optional sign and converts the longest leading digit run,
yielding 0 when no digits follow (overflow left unbounded). The byte 45 is
the minus sign, 43 the plus sign. -/
def atoi (s : List Nat) : Int :=
  match s.dropWhile isSpaceByte with
  | 45 :: rest => -(atoiDigits rest 0)
  | 43 :: rest => atoiDigits rest 0
  | s1 => atoiDigits s1 0

/-- The bytes of "off". -/
def i8k_off : List Nat := [111, 102, 102]

/-- The bytes of "low". -/
def i8k_low : List Nat := [108, 111, 119]

/-- The bytes of "high". -/
def i8k_high : List Nat := [104, 105, 103, 104]

/-- The bytes of "error". -/
def i8k_error : List Nat := [101, 114, 114, 111, 114]

/-- The status_arr table of print_i8k_fan_status (i8k.cc:90). -/
def status_arr : List (List Nat) := [i8k_off, i8k_low, i8k_high, i8k_error]

/-- The index computed by print_i8k_fan_status (i8k.cc:92-93): atoi of the
status string, 3 for a null pointer, clamped to 3 outside [0, 3]. -/
def i8k_status_index (status : Option (List Nat)) : Int :=
  let i : Int := match status with | none => 3 | some s => atoi s
  if i < 0 ∨ 3 < i then 3 else i

/-- `print_i8k_fan_status` (i8k.cc:89-96): the status string printed, the
entry of status_arr at the computed index (snprintf truncation by the
caller's buffer size is not modelled). -/
def print_i8k_fan_status (status : Option (List Nat)) : List Nat :=
  status_arr.getD (i8k_status_index status).toNat []

/- ------------------------------------------------------------------
Helper lemmas.
------------------------------------------------------------------ -/

/-- lastD yields its default or a member of the list. -/
theorem lastD_eq_or_mem : ∀ (l : List Window) (d : Window),
    lastD l d = d ∨ lastD l d ∈ l := by
  intro l
  induction l with
  | nil => intro d; exact Or.inl rfl
  | cons a l ih =>
    intro d
    rcases ih a with h | h
    · exact Or.inr (by simp [lastD, h])
    · exact Or.inr (by simp [lastD]; exact Or.inr h)

/-- lastD of a list ending in `a` is `a`. -/
theorem lastD_concat : ∀ (l : List Window) (a d : Window),
    lastD (l ++ [a]) d = a := by
  intro l
  induction l with
  | nil => intro a d; rfl
  | cons b l ih => intro a d; simpa [lastD] using ih a b

/-- Members of the filtered list differ from the overlay window. -/
theorem removeOverlay_ne (overlay : Window) (below : List Window) :
    ∀ w ∈ removeOverlay overlay below, w ≠ overlay := by
  intro w hw
  have := List.of_mem_filter hw
  simpa using this

/- ------------------------------------------------------------------
Claim theorems.
------------------------------------------------------------------ -/

/-- C1 counterexample: with true root 1, desktop window 2 and overlay
window 7, an XInput event at a position where only the overlay window is
viewable leaves the filtered list empty, and `propagate_xinput_event`
resolves the target to the root window 1, not the desktop window 2 — so the
claim's "otherwise the desktop window", quantified over every forwarded
input event, fails on the XInput path. -/
theorem C1_xinput_fallback_counterexample :
    removeOverlay 7 [7] = [] ∧ propagateXinputTarget 1 7 [7] ≠ 2 := by decide

/-- C1 (amended): input-event forwarding never targets the overlay's own
window. After removing the overlay window from the viewable windows at the
event position, both propagation paths target the topmost (last) remaining
window when the list is non-empty; on an empty list the core path falls back
to the desktop window and the XInput path to the root window — in either
case never the overlay, provided desktop and root are not the overlay. -/
theorem C1_forward_target_never_overlay (d r o : Window) (l : List Window)
    (hd : d ≠ o) (hr : r ≠ o) :
    propagateX11Target d o l ≠ o ∧
    propagateXinputTarget r o l ≠ o ∧
    (removeOverlay o l = [] →
      propagateX11Target d o l = d ∧ propagateXinputTarget r o l = r) ∧
    (∀ w rest, removeOverlay o l = rest ++ [w] →
      propagateX11Target d o l = w ∧ propagateXinputTarget r o l = w) := by
  refine ⟨?_, ?_, ?_, ?_⟩
  · unfold propagateX11Target
    rcases lastD_eq_or_mem (removeOverlay o l) d with h | h
    · rw [h]; exact hd
    · exact removeOverlay_ne o l _ h
  · unfold propagateXinputTarget
    rcases lastD_eq_or_mem (removeOverlay o l) r with h | h
    · rw [h]; exact hr
    · exact removeOverlay_ne o l _ h
  · intro h
    unfold propagateX11Target propagateXinputTarget
    rw [h]
    exact ⟨rfl, rfl⟩
  · intro w rest h
    unfold propagateX11Target propagateXinputTarget
    rw [h, lastD_concat, lastD_concat]
    exact ⟨rfl, rfl⟩

/-- C1 witness: the amended theorem at desktop 2, root 1, overlay 7 and
viewable windows [3, 7, 4]. -/
theorem C1_forward_target_witness :
    propagateX11Target 2 7 [3, 7, 4] ≠ 7 ∧
    propagateXinputTarget 1 7 [3, 7, 4] ≠ 7 ∧
    (removeOverlay 7 [3, 7, 4] = [] →
      propagateX11Target 2 7 [3, 7, 4] = 2 ∧
      propagateXinputTarget 1 7 [3, 7, 4] = 1) ∧
    (∀ w rest, removeOverlay 7 [3, 7, 4] = rest ++ [w] →
      propagateX11Target 2 7 [3, 7, 4] = w ∧
      propagateXinputTarget 1 7 [3, 7, 4] = w) :=
  C1_forward_target_never_overlay 2 1 7 [3, 7, 4] (by decide) (by decide)

/-- C2: each of the three desktop-state reads leaves the cache untouched on
an absent atom and on any reply mismatch (failed call, wrong type, wrong
item count or wrong format); in a valid-read-then-mismatched-read sequence
the cached field keeps the value the valid read stored. -/
theorem C2_mismatch_preserves_cache (a u : Nat) (r₁ r₂ : PropReply)
    (s : DesktopInfo) :
    (get_x11_desktop_current none r₂ s = s) ∧
    (get_x11_desktop_number none r₂ s = s) ∧
    (get_x11_desktop_names none u r₂ s = s) ∧
    (cardinalOk r₂ = false → get_x11_desktop_current (some a) r₂ s = s) ∧
    (cardinalOk r₂ = false → get_x11_desktop_number (some a) r₂ s = s) ∧
    (namesOk u r₂ = false → get_x11_desktop_names (some a) u r₂ s = s) ∧
    (cardinalOk r₁ = true → cardinalOk r₂ = false →
      (get_x11_desktop_current (some a) r₂
        (get_x11_desktop_current (some a) r₁ s)).current =
        r₁.data.headD 0 + 1) ∧
    (cardinalOk r₁ = true → cardinalOk r₂ = false →
      (get_x11_desktop_number (some a) r₂
        (get_x11_desktop_number (some a) r₁ s)).number = r₁.data.headD 0) ∧
    (namesOk u r₁ = true → namesOk u r₂ = false →
      (get_x11_desktop_names (some a) u r₂
        (get_x11_desktop_names (some a) u r₁ s)).all_names =
        r₁.data.take r₁.nitems) := by
  refine ⟨rfl, rfl, rfl, ?_, ?_, ?_, ?_, ?_, ?_⟩
  · intro h; simp [get_x11_desktop_current, h]
  · intro h; simp [get_x11_desktop_number, h]
  · intro h; simp [get_x11_desktop_names, h]
  · intro h₁ h₂; simp [get_x11_desktop_current, h₁, h₂]
  · intro h₁ h₂; simp [get_x11_desktop_number, h₁, h₂]
  · intro h₁ h₂; simp [get_x11_desktop_names, h₁, h₂]

/-- C6: when the virtual-root list is non-empty but the current-desktop
atom is unavailable, the resolver returns the true root window. -/
theorem C6_no_current_desktop_falls_back_to_root (r : Window) (a : Nat)
    (v : List Window) (c : Nat) (hne : v ≠ []) :
    VRootWindowOfScreen r (some a) v none c = r := by
  unfold VRootWindowOfScreen
  simp [hne]

/-- C6 witness: the theorem at root 42, virtual roots [9, 10]. -/
theorem C6_no_current_desktop_witness :
    VRootWindowOfScreen 42 (some 5) [9, 10] none 0 = 42 :=
  C6_no_current_desktop_falls_back_to_root 42 5 [9, 10] 0 (by decide)

/-- C7 counterexample: a managed overlay window of type PANEL requested at
position (5, 7) is created at (5, 7), not at the origin — the claim's
"dock or panel" fails for panels. -/
theorem C7_panel_keeps_position_counterexample :
    managed_creation_pos window_type.panel (5, 7) = (5, 7) ∧
    managed_creation_pos window_type.panel (5, 7) ≠ (0, 0) := by decide

/-- C7 (amended): for a managed overlay window, only the DOCK window type
forces the requested position to the origin before creation; every other
type, the PANEL type included, keeps the requested position. -/
theorem C7_dock_forces_origin :
    (∀ p : Int × Int, managed_creation_pos window_type.dock p = (0, 0)) ∧
    (∀ (t : window_type) (p : Int × Int), t ≠ window_type.dock →
      managed_creation_pos t p = p) := by
  refine ⟨fun p => rfl, fun t p ht => ?_⟩
  simp [managed_creation_pos, ht]

/-- C9: desktop-name derivation round-trips: on the cached name list
"Desk1\0Desk2\0Desk3\0" with cached current index 2, the derived current
name is exactly "Desk2". -/
theorem C9_desktop_name_roundtrip :
    (get_x11_desktop_current_name
      { current := 2, number := 3, all_names := deskNamesExample,
        name := [] }).name = [68, 101, 115, 107, 50] := by decide

/-- C4: only events of the seven input categories are ever forwarded: an
event outside them never reaches the synthetic send, and a forwarded event
always belongs to one of the seven categories. -/
theorem C4_only_input_categories_forwarded (e : XEvent) :
    (eventCategory e = none → propagate_x11_event_forwards e = false) ∧
    (propagate_x11_event_forwards e = true → (eventCategory e).isSome = true) := by
  cases e with
  | core t =>
    constructor
    · intro hnone
      simp only [eventCategory] at hnone
      split_ifs at hnone
      all_goals try simp at hnone
      simp only [propagate_x11_event_forwards, decide_eq_false_iff_not]
      tauto
    · intro hfwd
      simp only [propagate_x11_event_forwards, decide_eq_true_eq] at hfwd
      rcases hfwd with h | h | h | h | h | h | h <;> subst h <;> decide
  | xinput c ev =>
    constructor
    · intro hnone
      simp only [eventCategory] at hnone
      split_ifs at hnone
      all_goals try simp at hnone
      simp only [propagate_x11_event_forwards]
      have hdec : decide (ev = XI_Motion ∨ ev = XI_ButtonPress ∨
          ev = XI_ButtonRelease) = false := by
        simp only [decide_eq_false_iff_not]
        tauto
      rw [hdec, Bool.and_false]
    · intro hfwd
      simp only [propagate_x11_event_forwards, Bool.and_eq_true,
        decide_eq_true_eq] at hfwd
      rcases hfwd.2 with h | h | h <;> subst h <;> rfl

/-- C5: with the Xinerama extension present and active and every reported
head rectangle inside the display bounds, a valid head index makes the
workarea exactly that head's rectangle with no warning; an out-of-range
index yields the full-display rectangle with exactly one warning; and the
computed workarea is always contained in the display bounds. -/
theorem C5_workarea_head_selection (dw dh : Int) (si : List Rect) (i : Int)
    (hc : ∀ r ∈ si, rectInside r (fullRect dw dh)) :
    (∀ (h0 : 0 ≤ i) (hlt : i.toNat < si.length),
      update_x11_workarea dw dh true true (some si) i =
        (si.get ⟨i.toNat, hlt⟩, 0)) ∧
    ((i < 0 ∨ (si.length : Int) ≤ i) →
      update_x11_workarea dw dh true true (some si) i = (fullRect dw dh, 1)) ∧
    rectInside (update_x11_workarea dw dh true true (some si) i).1
      (fullRect dw dh) := by
  have hdef : update_x11_workarea dw dh true true (some si) i =
      if h : i < 0 ∨ (si.length : Int) ≤ i then (fullRect dw dh, 1)
      else (si.get ⟨i.toNat, by omega⟩, 0) := rfl
  refine ⟨?_, ?_, ?_⟩
  · intro h0 hlt
    rw [hdef, dif_neg (by omega)]
  · intro hout
    rw [hdef, dif_pos hout]
  · rw [hdef]
    split
    · exact ⟨le_refl _, le_refl _, le_refl _, le_refl _⟩
    · exact hc _ (List.get_mem _ _ _)

/-- C5 witness: the theorem at a 100 by 100 display with two side-by-side
heads and head index 1. -/
theorem C5_workarea_witness :
    rectInside (update_x11_workarea 100 100 true true
      (some [⟨0, 0, 50, 100⟩, ⟨50, 0, 50, 100⟩]) 1).1 (fullRect 100 100) :=
  (C5_workarea_head_selection 100 100 [⟨0, 0, 50, 100⟩, ⟨50, 0, 50, 100⟩] 1
    (by decide)).2.2

/-- One-step unfolding of the bounded desktop-window search. -/
theorem find_impl_succ (t : XTree) (w h : Int) (n : Nat) (v : Window) :
    find_desktop_window_impl t w h (n + 1) v =
      match findDesktopStep t w h v with
      | none => v
      | some c => find_desktop_window_impl t w h n c := rfl

/-- The bounded search performs some number k of successful first-match
descents, k at most the fuel, and when it stops below the fuel bound the
window reached has no matching child. -/
theorem find_impl_chain (t : XTree) (w h : Int) :
    ∀ (n : Nat) (v : Window), ∃ k, k ≤ n ∧
      stepChain t w h k v = some (find_desktop_window_impl t w h n v) ∧
      (k < n → findDesktopStep t w h (find_desktop_window_impl t w h n v) = none) := by
  intro n
  induction n with
  | zero =>
    intro v
    exact ⟨0, Nat.le_refl 0, rfl, fun h' => absurd h' (Nat.lt_irrefl 0)⟩
  | succ m ih =>
    intro v
    cases hstep : findDesktopStep t w h v with
    | none =>
      refine ⟨0, Nat.zero_le _, ?_, ?_⟩
      · simp [find_impl_succ, hstep, stepChain]
      · intro _
        simp [find_impl_succ, hstep]
    | some c =>
      obtain ⟨k, hk, hchain, hstop⟩ := ih c
      refine ⟨k + 1, Nat.succ_le_succ hk, ?_, ?_⟩
      · simp [stepChain, find_impl_succ, hstep, hchain]
      · intro hlt
        simp only [find_impl_succ, hstep]
        exact hstop (Nat.lt_of_succ_lt_succ hlt)

/-- C8: the desktop-window search takes, at each level, the first child in
enumeration order that is mapped, non-override-redirect and exactly the
target size; it stops at the first level with no matching child — in
particular it returns the given window when no child of it matches — and it
descends at most 10 levels from the given window. -/
theorem C8_desktop_search_bounded (t : XTree) (w h : Int) (v : Window) :
    (findDesktopStep t w h v = (t.children v).find? (desktopMatch t w h)) ∧
    (findDesktopStep t w h v = none → find_desktop_window_impl t w h 10 v = v) ∧
    (∃ k, k ≤ 10 ∧
      stepChain t w h k v = some (find_desktop_window_impl t w h 10 v) ∧
      (k < 10 → findDesktopStep t w h (find_desktop_window_impl t w h 10 v) = none)) := by
  refine ⟨rfl, ?_, find_impl_chain t w h 10 v⟩
  intro h'
  have hdef : find_desktop_window_impl t w h 10 v =
      match findDesktopStep t w h v with
      | none => v
      | some c => find_desktop_window_impl t w h 9 c := rfl
  rw [hdef, h']

/-- C10: the i8k fan-status formatter prints one of exactly "off", "low",
"high", "error"; a null status pointer prints "error"; a status parsing
outside [0, 3] prints "error"; and the status array is never indexed out of
bounds. -/
theorem C10_fan_status_safe (o : Option (List Nat)) :
    (print_i8k_fan_status o = i8k_off ∨ print_i8k_fan_status o = i8k_low ∨
      print_i8k_fan_status o = i8k_high ∨
      print_i8k_fan_status o = i8k_error) ∧
    (o = none → print_i8k_fan_status o = i8k_error) ∧
    (∀ s, o = some s → (atoi s < 0 ∨ 3 < atoi s) →
      print_i8k_fan_status o = i8k_error) ∧
    (i8k_status_index o).toNat < status_arr.length := by
  have hrange : 0 ≤ i8k_status_index o ∧ i8k_status_index o ≤ 3 := by
    unfold i8k_status_index
    cases o <;> dsimp only <;> split_ifs <;> omega
  refine ⟨?_, ?_, ?_, ?_⟩
  · have h4 : i8k_status_index o = 0 ∨ i8k_status_index o = 1 ∨
        i8k_status_index o = 2 ∨ i8k_status_index o = 3 := by omega
    rcases h4 with h | h | h | h <;> unfold print_i8k_fan_status <;> rw [h] <;>
      decide
  · intro h
    subst h
    decide
  · intro s hs h
    subst hs
    have h3 : i8k_status_index (some s) = 3 := by
      show (if atoi s < 0 ∨ 3 < atoi s then (3 : Int) else atoi s) = 3
      rw [if_pos h]
    unfold print_i8k_fan_status
    rw [h3]
    decide
  · have hlen : status_arr.length = 4 := rfl
    rw [hlen]
    omega

/-- std::clamp to [lo, hi] lands in [lo, hi] when lo ≤ hi. -/
theorem clampI_bounds (v lo hi : Int) (h : lo ≤ hi) :
    lo ≤ clampI v lo hi ∧ clampI v lo hi ≤ hi := by
  unfold clampI
  split_ifs <;> omega

/-- The all-zero strut vector is bounded by a non-negative display size. -/
theorem zeroStruts_bounded (dw dh : Int) (hw : 0 ≤ dw) (hh : 0 ≤ dh) :
    strutsBounded dw dh Struts.zero := by
  simp only [strutsBounded, Struts.zero]
  omega

/-- The left-edge reservation is bounded by the display size. -/
theorem leftStruts_bounded (dw dh : Int) (hw : 0 ≤ dw) (hh : 0 ≤ dh)
    (g : Geometry) : strutsBounded dw dh (leftStruts dw dh g) := by
  simp only [strutsBounded, leftStruts, Struts.zero, clampI]
  split_ifs <;> omega

/-- The right-edge reservation is bounded by the display size. -/
theorem rightStruts_bounded (dw dh : Int) (hw : 0 ≤ dw) (hh : 0 ≤ dh)
    (g : Geometry) : strutsBounded dw dh (rightStruts dw dh g) := by
  simp only [strutsBounded, rightStruts, Struts.zero, clampI]
  split_ifs <;> omega

/-- The top-edge reservation is bounded by the display size. -/
theorem topStruts_bounded (dw dh : Int) (hw : 0 ≤ dw) (hh : 0 ≤ dh)
    (g : Geometry) : strutsBounded dw dh (topStruts dw dh g) := by
  simp only [strutsBounded, topStruts, Struts.zero, clampI]
  split_ifs <;> omega

/-- The bottom-edge reservation is bounded by the display size. -/
theorem bottomStruts_bounded (dw dh : Int) (hw : 0 ≤ dw) (hh : 0 ≤ dh)
    (g : Geometry) : strutsBounded dw dh (bottomStruts dw dh g) := by
  simp only [strutsBounded, bottomStruts, Struts.zero, clampI]
  split_ifs <;> omega

/-- Every strut vector of the cutout-capable branch is bounded by the
display size. -/
theorem cutoutStruts_bounded (dw dh : Int) (hw : 0 ≤ dw) (hh : 0 ≤ dh)
    (b : Bool) (al : alignment) (g : Geometry) :
    strutsBounded dw dh (cutoutStruts dw dh b al g) := by
  cases b <;> cases al <;>
    first
      | exact zeroStruts_bounded dw dh hw hh
      | exact leftStruts_bounded dw dh hw hh g
      | exact rightStruts_bounded dw dh hw hh g
      | exact topStruts_bounded dw dh hw hh g
      | exact bottomStruts_bounded dw dh hw hh g

/-- Every strut vector of the spec-conservative branch is bounded by the
display size. -/
theorem genericStruts_bounded (dw dh : Int) (hw : 0 ≤ dw) (hh : 0 ≤ dh)
    (g : Geometry) :
    strutsBounded dw dh (genericStruts dw dh g) := by
  simp only [genericStruts]
  split_ifs <;>
    first
      | exact leftStruts_bounded dw dh hw hh g
      | exact rightStruts_bounded dw dh hw hh g
      | exact topStruts_bounded dw dh hw hh g
      | exact bottomStruts_bounded dw dh hw hh g

/-- C3: for every window geometry, display size, alignment and
window-manager compatibility flag, whenever set_struts pushes a strut
vector, each of the twelve values lies in [0, display_width] for the
horizontal slots and [0, display_height] for the vertical slots. -/
theorem C3_strut_values_clamped (a : Bool) (dw dh : Int) (c : Bool)
    (l : alignment) (b : Bool) (g : Geometry) (s : Struts)
    (hw : 0 ≤ dw) (hh : 0 ≤ dh)
    (hs : set_struts a dw dh c l b g = some s) :
    strutsBounded dw dh s := by
  unfold set_struts at hs
  split_ifs at hs
  · cases hs
    exact cutoutStruts_bounded dw dh hw hh b l g
  · cases hs
    exact genericStruts_bounded dw dh hw hh g

/-- C3 witness: the theorem for a cutout-capable window manager, a wide
window at the origin of a 100 by 50 display, aligned top-left. -/
theorem C3_strut_values_witness :
    strutsBounded 100 50
      (cutoutStruts 100 50 true alignment.top_left ⟨0, 0, 30, 10⟩) :=
  C3_strut_values_clamped true 100 50 true alignment.top_left true
    ⟨0, 0, 30, 10⟩ (cutoutStruts 100 50 true alignment.top_left ⟨0, 0, 30, 10⟩)
    (by decide) (by decide) rfl
